import Mathlib

/-!
# Chat relay (`backend/server.js`) and chat widget (`backend/script.js`)

A shallow embedding of the two source files.

* The process-global `conversationHistory` becomes an explicit `List Message`
  that every handler takes and returns.
* `SECRET_KEY` (read once from the environment, possibly unset) is an
  `Option String` parameter.
* The OpenAI client is a parameter `openai : CompletionParams → Completion`;
  every handler reports the list of calls it made to it.
* Requests are handled one at a time: the interleaving of two handlers around
  the `await` in `/chat` is not modelled.
-/

namespace DepressionChatbot

/-! ## Values -/

/-- JSON values as they reach the handlers after `express.json()` and as they
come back from the completion API. Numbers are restricted to integers. -/
inductive Json where
  | null
  | bool (b : Bool)
  | num (n : Int)
  | str (s : String)
  | arr (items : List Json)
  | obj (fields : List (String × Json))

/-- JavaScript `ToBoolean` on a JSON value: `!v` is `!(truthy v)`. -/
def Json.truthy : Json → Bool
  | .null => false
  | .bool b => b
  | .num n => n != 0
  | .str s => s != ""
  | .arr _ => true
  | .obj _ => true

/-- The three roles that occur in `server.js`. -/
inductive Role where
  | system
  | user
  | assistant
  deriving DecidableEq, Repr

/-- One entry of `conversationHistory`: `{ role, content }`. -/
structure Message where
  role : Role
  content : Json

/-- What a handler reads from `req`: `req.headers` (names already lower-cased
by Node, one entry per name) and the fields of the object `express.json()`
left in `req.body`. -/
structure Request where
  headers : List (String × String)
  body : List (String × Json)

/-- What a handler sends back: `res.status(status).json(body)`; `res.json`
alone sends status 200. -/
structure Response where
  status : Nat
  body : Json

/-! ## The completion API -/

/-- The argument of `openai.chat.completions.create` (lines 70-78). -/
structure CompletionParams where
  model : String
  messages : List Message
  temperature : ℚ
  top_p : ℚ
  presence_penalty : ℚ
  frequency_penalty : ℚ
  max_tokens : Nat

/-- The `message` of one choice of a completion. -/
structure ChoiceMessage where
  content : Json

/-- One element of `completion.choices`; a malformed element has no `message`. -/
structure Choice where
  message : Option ChoiceMessage

/-- What `await openai.chat.completions.create(...)` does: it throws (network
error, API error) or yields a completion with its `choices`. -/
inductive Completion where
  | rejected
  | resolved (choices : List Choice)

/-- Line 80, `completion.choices[0].message.content`: `none` when the awaited
call threw or when the property chain throws a `TypeError` (no first choice, no
`message`), which the same `catch` block receives. -/
def replyOf : Completion → Option Json
  | .rejected => none
  | .resolved [] => none
  | .resolved (c :: _) =>
    match c.message with
    | none => none
    | some m => some m.content

/-! ## Server state -/

/-- The template literal of lines 30-38. -/
def systemContent : String :=
  "You are a compassionate chatbot designed to support people diagnosed with depression. You respond with empathy, encouragement, and reputable resources. \n" ++
  "\n" ++
  "- If the user attempts to go off-topic from their emotional well-being or depression, gently guide them back to focusing on their personal experiences and ways to cope with depression. \n" ++
  "- Always provide reputable and reliable sources in your responses, including source links. \n" ++
  "- Avoid digressing into unrelated matters or speculative topics. \n" ++
  "- Offer practical techniques, supportive language, and remind them they are not alone.\n" ++
  "\n" ++
  "Remember: You are not a substitute for professional medical advice. Urge the user to reach out to a mental health professional if needed. \n"

/-- The template literal of lines 107-115, used by `/clear`. -/
def clearedSystemContent : String :=
  "You are a compassionate chatbot designed to support people diagnosed with depression. You respond with empathy, encouragement, and reputable resources.\n" ++
  "\n" ++
  "- If the user attempts to go off-topic from their emotional well-being or depression, gently guide them back to focusing on their personal experiences and ways to cope with depression.\n" ++
  "- Always provide reputable and reliable sources in your responses, including source links.\n" ++
  "- Avoid digressing into unrelated matters or speculative topics.\n" ++
  "- Offer practical techniques, supportive language, and remind them they are not alone.\n" ++
  "\n" ++
  "Remember: You are not a substitute for professional medical advice. Urge the user to reach out to a mental health professional if needed.\n"

/-- The value `conversationHistory` is given at process start (lines 27-40). -/
def conversationHistory : List Message :=
  [{ role := .system, content := .str systemContent }]

/-- The value `/clear` assigns to `conversationHistory` (lines 104-117). -/
def clearedHistory : List Message :=
  [{ role := .system, content := .str clearedSystemContent }]

/-- The result of handling one request: the response, the value of
`conversationHistory` afterwards, the arguments of the calls made to the
completion API, and (bookkeeping only) the entries pushed onto the history. -/
structure Outcome where
  response : Response
  conversationHistory : List Message
  calls : List CompletionParams
  pushed : List Message

/-! ## Handlers -/

/-- Lines 43-49. `req.headers.devkey` is `undefined` when the header is absent
and `process.env.SECRET_KEY` is `undefined` when the variable is unset; `!==`
compares the two without conversion. -/
def authorize (SECRET_KEY : Option String) (req : Request) : Bool :=
  let devKey := req.headers.lookup "devkey"
  if devKey ≠ SECRET_KEY then false else true

/-- `Array.prototype.slice(start)` with no end: a negative `start` counts from
the end of the array, and the start index is clamped to `[0, length]`. -/
def slice (start : Int) (xs : List α) : List α :=
  let k : Nat := if start < 0 then ((xs.length : Int) + start).toNat
                 else min start.toNat xs.length
  xs.drop k

/-- The fixed generation parameters of lines 70-78 around the transcript. -/
def completionParams (messages : List Message) : CompletionParams :=
  { model := "gpt-4o"
    messages := messages
    temperature := 9 / 10
    top_p := 1
    presence_penalty := 6 / 10
    frequency_penalty := 2 / 10
    max_tokens := 512 }

/-- The `/chat` handler, lines 52-95. -/
def postChat (SECRET_KEY : Option String) (openai : CompletionParams → Completion)
    (history : List Message) (req : Request) : Outcome :=
  let message := req.body.lookup "message"
  if !authorize SECRET_KEY req then
    { response := ⟨401, .obj [("error", .str "Unauthorized")]⟩
      conversationHistory := history, calls := [], pushed := [] }
  else
    match message with
    | none =>
      { response := ⟨400, .obj [("error", .str "Request body must include a 'message' field.")]⟩
        conversationHistory := history, calls := [], pushed := [] }
    | some message =>
      if !message.truthy then
        { response := ⟨400, .obj [("error", .str "Request body must include a 'message' field.")]⟩
          conversationHistory := history, calls := [], pushed := [] }
      else
        let userEntry : Message := { role := .user, content := message }
        let history₁ := history ++ [userEntry]
        let params := completionParams history₁
        match replyOf (openai params) with
        | none =>
          { response := ⟨500, .obj [("error", .str "Something went wrong. Please try again.")]⟩
            conversationHistory := history₁, calls := [params], pushed := [userEntry] }
        | some reply =>
          let assistantEntry : Message := { role := .assistant, content := reply }
          let history₂ := history₁ ++ [assistantEntry]
          let history₃ := if history₂.length > 20 then slice (-20) history₂ else history₂
          { response := ⟨200, .obj [("reply", reply)]⟩
            conversationHistory := history₃, calls := [params]
            pushed := [userEntry, assistantEntry] }

/-- The `/clear` handler, lines 98-120. -/
def postClear (SECRET_KEY : Option String) (history : List Message) (req : Request) : Outcome :=
  if !authorize SECRET_KEY req then
    { response := ⟨401, .obj [("error", .str "Unauthorized")]⟩
      conversationHistory := history, calls := [], pushed := [] }
  else
    { response := ⟨200, .obj [("message", .str "Conversation history cleared.")]⟩
      conversationHistory := clearedHistory, calls := [], pushed := [] }

/-! ## Runs of the server -/

/-- One request reaching the server, with the behaviour of the completion API
at that moment for `/chat`. -/
inductive Event where
  | chat (req : Request) (openai : CompletionParams → Completion)
  | clear (req : Request)

/-- Dispatch of one request to its route. -/
def step (SECRET_KEY : Option String) (history : List Message) : Event → Outcome
  | .chat req openai => postChat SECRET_KEY openai history req
  | .clear req => postClear SECRET_KEY history req

/-- The value of `conversationHistory` after handling the events in order. -/
def run (SECRET_KEY : Option String) (history : List Message) : List Event → List Message
  | [] => history
  | e :: es => run SECRET_KEY (step SECRET_KEY history e).conversationHistory es

/-- Every event of the run is a `/chat` request answered with status 200. -/
def allChatsSucceed (SECRET_KEY : Option String) (history : List Message) : List Event → Bool
  | [] => true
  | .clear _ :: _ => false
  | .chat req openai :: es =>
    let o := postChat SECRET_KEY openai history req
    o.response.status == 200 && allChatsSucceed SECRET_KEY o.conversationHistory es

/-- Bookkeeping: the transcript the run would leave if nothing were ever
dropped, that is `log` followed by every entry the handlers pushed. -/
def untruncated (SECRET_KEY : Option String) (history log : List Message) :
    List Event → List Message
  | [] => log
  | e :: es =>
    let o := step SECRET_KEY history e
    untruncated SECRET_KEY o.conversationHistory (log ++ o.pushed) es

/-- The number of `/chat` requests handled since process start or since the
last `/clear` request that passed the authorization check. -/
def chatsSinceReset (SECRET_KEY : Option String) (count : Nat) : List Event → Nat
  | [] => count
  | .chat _ _ :: es => chatsSinceReset SECRET_KEY (count + 1) es
  | .clear req :: es =>
    chatsSinceReset SECRET_KEY (if authorize SECRET_KEY req then 0 else count) es

/-! ## The widget (`script.js`) -/

/-- The code points `String.prototype.trim` removes: ECMAScript `WhiteSpace`
and `LineTerminator`. -/
def isTrimmed (c : Char) : Bool :=
  let n := c.toNat
  n == 0x09 || n == 0x0A || n == 0x0B || n == 0x0C || n == 0x0D || n == 0x20 ||
  n == 0xA0 || n == 0x1680 || (0x2000 ≤ n && n ≤ 0x200A) || n == 0x2028 ||
  n == 0x2029 || n == 0x202F || n == 0x205F || n == 0x3000 || n == 0xFEFF

/-- `String.prototype.trim`. -/
def trim (s : String) : String :=
  String.mk ((s.data.dropWhile isTrimmed).reverse.dropWhile isTrimmed).reverse

/-- The arguments of the `fetch` call of lines 24-28; `body` is the value that
`JSON.stringify` serialises. -/
structure FetchRequest where
  url : String
  method : String
  headers : List (String × String)
  body : Json

/-- Lines 15-28 of `script.js`, as far as the request is concerned:
`userInput.value` is trimmed, nothing is sent when the result is empty, and
otherwise the `fetch` call is made with these arguments. -/
def sendMessage (value : String) : Option FetchRequest :=
  let message := trim value
  if message = "" then none
  else some
    { url := "http://localhost:3000/chat"
      method := "POST"
      headers := [("Content-Type", "application/json")]
      body := .obj [("message", .str message)] }

/-- How a `fetch` request appears to an Express handler: Node lower-cases the
header names and `express.json()` parses the body back into its fields (an
array or a primitive has no fields). -/
def received (r : FetchRequest) : Request :=
  { headers := r.headers.map fun h => (String.mk (h.1.data.map Char.toLower), h.2)
    body := match r.body with
      | .obj fields => fields
      | _ => [] }

/-! ## Shape of the transcript -/

/-- No entry of the list has the system role. -/
def NoSystem (l : List Message) : Prop :=
  ∀ m ∈ l, m.role ≠ .system

/-- One of the two system entries the server ever creates: the one of process
start and the one of `/clear`. -/
def Persona (p : Message) : Prop :=
  p = Message.mk .system (.str systemContent) ∨
  p = Message.mk .system (.str clearedSystemContent)

/-- The transcript starts with a system entry of the server and has no other
system entry. -/
def Headed (l : List Message) : Prop :=
  ∃ p rest, l = p :: rest ∧ Persona p ∧ NoSystem rest

/-- The shape every reachable transcript has, with `count` the number of
`/chat` requests since the last reset: a headed transcript, or what is left of
one after truncation; and still headed and short while `count` is at most 9. -/
def Shape (l : List Message) (count : Nat) : Prop :=
  (Headed l ∨ NoSystem l) ∧ (count ≤ 9 → Headed l ∧ l.length ≤ 1 + 2 * count)

/-! ## A sample run -/

/-- A `/chat` request carrying the key `"k"` and the message `"Hello"`. -/
def helloRequest : Request :=
  { headers := [("devkey", "k")], body := [("message", .str "Hello")] }

/-- A completion API that always answers with the single choice `"Hi"`. -/
def hiCompletion : CompletionParams → Completion :=
  fun _ => .resolved [⟨some ⟨.str "Hi"⟩⟩]

/-- The same successful `/chat` exchange, `n` times in a row. -/
def helloEvents (n : Nat) : List Event :=
  List.replicate n (.chat helloRequest hiCompletion)

/-! ## Authorization -/

/-- The check passes exactly when the header lookup and the secret coincide,
both possibly undefined. -/
theorem authorize_iff (SECRET_KEY : Option String) (req : Request) :
    authorize SECRET_KEY req = true ↔ req.headers.lookup "devkey" = SECRET_KEY := by
  unfold authorize
  by_cases h : req.headers.lookup "devkey" = SECRET_KEY <;> simp [h]

/-- With a secret set, a request without the header is denied. -/
theorem authorize_absent_header (s : String) (req : Request)
    (h : req.headers.lookup "devkey" = none) : authorize (some s) req = false := by
  unfold authorize
  simp [h]

/-- With a header present, the check passes exactly on string equality with a
secret that is set. -/
theorem authorize_present_header (SECRET_KEY : Option String) (req : Request) (v : String)
    (h : req.headers.lookup "devkey" = some v) :
    authorize SECRET_KEY req = true ↔ SECRET_KEY = some v := by
  rw [authorize_iff, h]
  exact eq_comm

/-- C1, evaluated where it fails: with `SECRET_KEY` unset, a request that has
no `devkey` header passes `authorize`. -/
theorem authorize_unset_secret_absent_header :
    authorize none { headers := [("content-type", "application/json")],
                     body := [("message", .str "hi")] } = true := by
  decide

/-! ## Rejections -/

/-- A request that fails the check gets 401 from `/chat`, whatever its body,
with no upstream call and the history untouched. -/
theorem postChat_unauthorized (SECRET_KEY : Option String)
    (openai : CompletionParams → Completion) (history : List Message) (req : Request)
    (h : authorize SECRET_KEY req = false) :
    postChat SECRET_KEY openai history req =
      { response := ⟨401, .obj [("error", .str "Unauthorized")]⟩
        conversationHistory := history, calls := [], pushed := [] } := by
  unfold postChat
  simp [h]

/-- A request that fails the check gets 401 from `/clear`, with the history
untouched. -/
theorem postClear_unauthorized (SECRET_KEY : Option String) (history : List Message)
    (req : Request) (h : authorize SECRET_KEY req = false) :
    postClear SECRET_KEY history req =
      { response := ⟨401, .obj [("error", .str "Unauthorized")]⟩
        conversationHistory := history, calls := [], pushed := [] } := by
  unfold postClear
  simp [h]

/-- C2, evaluated where it fails: with `SECRET_KEY` unset, a request without a
`devkey` header is not answered with 401 by either route; `/chat` pushes the
message and calls the completion API, `/clear` replaces the history. -/
theorem unset_secret_absent_header_not_rejected (openai : CompletionParams → Completion) :
    (postChat none openai conversationHistory
        { headers := [], body := [("message", .str "hi")] }).response.status ≠ 401 ∧
    (postChat none openai conversationHistory
        { headers := [], body := [("message", .str "hi")] }).calls.length = 1 ∧
    (postChat none openai conversationHistory
        { headers := [], body := [("message", .str "hi")] }).pushed.length ≠ 0 ∧
    (postClear none (conversationHistory ++ [{ role := .user, content := .str "hi" }])
        { headers := [], body := [] }).response.status = 200 ∧
    (postClear none (conversationHistory ++ [{ role := .user, content := .str "hi" }])
        { headers := [], body := [] }).conversationHistory.length = 1 := by
  have ha : authorize none { headers := [], body := [("message", .str "hi")] } = true := by
    decide
  have hb : authorize none { headers := [], body := [] } = true := by decide
  have ht : (Json.str "hi").truthy = true := by decide
  refine ⟨?_, ?_, ?_, ?_, ?_⟩
  · unfold postChat
    simp only [ha, List.lookup, beq_self_eq_true, ht, Bool.not_true, Bool.false_eq_true,
      if_false]
    cases replyOf (openai (completionParams
      (conversationHistory ++ [{ role := .user, content := .str "hi" }]))) <;> simp
  · unfold postChat
    simp only [ha, List.lookup, beq_self_eq_true, ht, Bool.not_true, Bool.false_eq_true,
      if_false]
    cases replyOf (openai (completionParams
      (conversationHistory ++ [{ role := .user, content := .str "hi" }]))) <;> simp
  · unfold postChat
    simp only [ha, List.lookup, beq_self_eq_true, ht, Bool.not_true, Bool.false_eq_true,
      if_false]
    cases replyOf (openai (completionParams
      (conversationHistory ++ [{ role := .user, content := .str "hi" }]))) <;> simp
  · unfold postClear
    simp [hb]
  · unfold postClear
    simp [hb, clearedHistory]

/-- C3: an authorized `/chat` request with no `message` field, or with the
empty string as message, gets status 400 with the fixed error body, makes no
upstream call and leaves the history as it was. -/
theorem postChat_missing_message (SECRET_KEY : Option String)
    (openai : CompletionParams → Completion) (history : List Message) (req : Request)
    (hauth : authorize SECRET_KEY req = true)
    (hmsg : req.body.lookup "message" = none ∨ req.body.lookup "message" = some (.str "")) :
    (postChat SECRET_KEY openai history req).response =
        ⟨400, .obj [("error", .str "Request body must include a 'message' field.")]⟩ ∧
    (postChat SECRET_KEY openai history req).calls = [] ∧
    (postChat SECRET_KEY openai history req).conversationHistory = history := by
  unfold postChat
  rcases hmsg with h | h <;> simp [hauth, h, Json.truthy]

/-- Witness for C3: a request with the right key and an empty message. -/
theorem postChat_missing_message_witness :
    (postChat (some "k") (fun _ => .rejected) conversationHistory
        { headers := [("devkey", "k")], body := [("message", .str "")] }).response =
        ⟨400, .obj [("error", .str "Request body must include a 'message' field.")]⟩ ∧
    (postChat (some "k") (fun _ => .rejected) conversationHistory
        { headers := [("devkey", "k")], body := [("message", .str "")] }).calls = [] ∧
    (postChat (some "k") (fun _ => .rejected) conversationHistory
        { headers := [("devkey", "k")], body := [("message", .str "")] }).conversationHistory =
      conversationHistory :=
  postChat_missing_message (some "k") (fun _ => .rejected) conversationHistory
    { headers := [("devkey", "k")], body := [("message", .str "")] } (by decide)
    (Or.inr rfl)

/-! ## Truncation -/

/-- `slice(-20)` keeps the entries from index `length - 20` on. -/
theorem slice_neg_twenty (xs : List α) : slice (-20) xs = xs.drop (xs.length - 20) := by
  unfold slice
  have h : ((xs.length : Int) + -20).toNat = xs.length - 20 := by omega
  simp [h]

/-- Lines 86-88 as one `drop`: when the length is at most 20 nothing is dropped. -/
theorem truncate_eq_drop (xs : List α) :
    (if xs.length > 20 then slice (-20) xs else xs) = xs.drop (xs.length - 20) := by
  by_cases h : xs.length > 20
  · rw [if_pos h, slice_neg_twenty]
  · have h0 : xs.length - 20 = 0 := by omega
    rw [if_neg h, h0, List.drop_zero]

/-! ## The successful exchange -/

/-- The outcome of `/chat` once the check and the message test have passed and
the completion API has produced a reply. -/
theorem postChat_reply (SECRET_KEY : Option String) (openai : CompletionParams → Completion)
    (history : List Message) (req : Request) (message reply : Json)
    (hauth : authorize SECRET_KEY req = true)
    (hmsg : req.body.lookup "message" = some message) (ht : message.truthy = true)
    (hup : replyOf (openai (completionParams (history ++ [Message.mk .user message]))) = some reply) :
    postChat SECRET_KEY openai history req =
      { response := ⟨200, .obj [("reply", reply)]⟩
        conversationHistory :=
          (history ++ [Message.mk .user message, Message.mk .assistant reply]).drop
            ((history ++ [Message.mk .user message, Message.mk .assistant reply]).length - 20)
        calls := [completionParams (history ++ [Message.mk .user message])]
        pushed := [Message.mk .user message, Message.mk .assistant reply] } := by
  unfold postChat
  simp only [hauth, hmsg, ht, hup, Bool.not_true, Bool.false_eq_true, if_false]
  rw [truncate_eq_drop]
  simp

/-- The outcome of `/chat` once the check and the message test have passed and
the completion API has produced no reply. -/
theorem postChat_no_reply (SECRET_KEY : Option String) (openai : CompletionParams → Completion)
    (history : List Message) (req : Request) (message : Json)
    (hauth : authorize SECRET_KEY req = true)
    (hmsg : req.body.lookup "message" = some message) (ht : message.truthy = true)
    (hup : replyOf (openai (completionParams (history ++ [Message.mk .user message]))) = none) :
    postChat SECRET_KEY openai history req =
      { response := ⟨500, .obj [("error", .str "Something went wrong. Please try again.")]⟩
        conversationHistory := history ++ [Message.mk .user message]
        calls := [completionParams (history ++ [Message.mk .user message])]
        pushed := [Message.mk .user message] } := by
  unfold postChat
  simp only [hauth, hmsg, ht, hup, Bool.not_true, Bool.false_eq_true, if_false]

/-- A non-empty string is truthy. -/
theorem truthy_str (m : String) (hm : m ≠ "") : (Json.str m).truthy = true := by
  simp [Json.truthy, hm]

/-- The completion API yields no reply exactly when the call threw, when the
completion has no first choice, or when the first choice has no message. -/
theorem replyOf_eq_none_iff (c : Completion) :
    replyOf c = none ↔
      c = .rejected ∨ c = .resolved [] ∨ ∃ rest, c = .resolved (⟨none⟩ :: rest) := by
  cases c with
  | rejected => simp [replyOf]
  | resolved choices =>
    cases choices with
    | nil => simp [replyOf]
    | cons ch rest =>
      cases ch with
      | mk msg =>
        cases msg with
        | none => simp [replyOf]
        | some m => simp [replyOf]

/-- C4: for every prior transcript, every authorized `/chat` request with a
non-empty message `m`, and every upstream result with reply text `r`, the
response is 200 with body `{reply: r}` and the new transcript is the last 20
entries of the old one followed by the user entry and the assistant entry, in
that order (all of it when it has at most 20 entries); the one upstream call
receives the old transcript followed by the user entry. -/
theorem postChat_success (SECRET_KEY : Option String) (openai : CompletionParams → Completion)
    (history : List Message) (req : Request) (m r : String)
    (hauth : authorize SECRET_KEY req = true)
    (hmsg : req.body.lookup "message" = some (.str m)) (hm : m ≠ "")
    (hup : replyOf (openai (completionParams (history ++ [Message.mk .user (.str m)]))) =
      some (.str r)) :
    (postChat SECRET_KEY openai history req).response = ⟨200, .obj [("reply", .str r)]⟩ ∧
    (postChat SECRET_KEY openai history req).conversationHistory =
      (history ++ [Message.mk .user (.str m), Message.mk .assistant (.str r)]).drop
        ((history ++ [Message.mk .user (.str m), Message.mk .assistant (.str r)]).length - 20) ∧
    ((history ++ [Message.mk .user (.str m), Message.mk .assistant (.str r)]).length ≤ 20 →
      (postChat SECRET_KEY openai history req).conversationHistory =
        history ++ [Message.mk .user (.str m), Message.mk .assistant (.str r)]) ∧
    (postChat SECRET_KEY openai history req).conversationHistory.length =
      min (history.length + 2) 20 ∧
    (postChat SECRET_KEY openai history req).calls =
      [completionParams (history ++ [Message.mk .user (.str m)])] := by
  rw [postChat_reply SECRET_KEY openai history req (.str m) (.str r) hauth hmsg
    (truthy_str m hm) hup]
  refine ⟨rfl, rfl, ?_, ?_, rfl⟩
  · intro hle
    have h0 : (history ++ [Message.mk .user (.str m), Message.mk .assistant (.str r)]).length - 20 = 0 := by
      omega
    show List.drop _ _ = _
    rw [h0, List.drop_zero]
  · show (List.drop _ _).length = _
    simp only [List.length_drop, List.length_append, List.length_cons, List.length_nil]
    omega

/-- Witness for C4: the first exchange after process start. -/
theorem postChat_success_witness :
    (postChat (some "k") (fun _ => .resolved [⟨some ⟨.str "Hi"⟩⟩]) conversationHistory
        { headers := [("devkey", "k")], body := [("message", .str "Hello")] }).response =
      ⟨200, .obj [("reply", .str "Hi")]⟩ ∧
    (postChat (some "k") (fun _ => .resolved [⟨some ⟨.str "Hi"⟩⟩]) conversationHistory
        { headers := [("devkey", "k")], body := [("message", .str "Hello")] }).conversationHistory.length
      = 3 :=
  have h := postChat_success (some "k") (fun _ => .resolved [⟨some ⟨.str "Hi"⟩⟩])
    conversationHistory { headers := [("devkey", "k")], body := [("message", .str "Hello")] }
    "Hello" "Hi" (by decide) rfl (by decide) rfl
  ⟨h.1, h.2.2.2.1⟩

/-- C9: for every prior transcript and every authorized `/chat` request with a
non-empty message `m`, when the upstream call yields no reply (it threw, or the
completion has no usable first choice) the response is 500 with the fixed
error body and the new transcript is the old one followed by the user entry
alone. -/
theorem postChat_upstream_failure (SECRET_KEY : Option String)
    (openai : CompletionParams → Completion) (history : List Message) (req : Request)
    (m : String) (hauth : authorize SECRET_KEY req = true)
    (hmsg : req.body.lookup "message" = some (.str m)) (hm : m ≠ "")
    (hup : openai (completionParams (history ++ [Message.mk .user (.str m)])) = .rejected ∨
      openai (completionParams (history ++ [Message.mk .user (.str m)])) = .resolved [] ∨
      ∃ rest, openai (completionParams (history ++ [Message.mk .user (.str m)])) =
        .resolved (⟨none⟩ :: rest)) :
    (postChat SECRET_KEY openai history req).response =
      ⟨500, .obj [("error", .str "Something went wrong. Please try again.")]⟩ ∧
    (postChat SECRET_KEY openai history req).conversationHistory =
      history ++ [Message.mk .user (.str m)] ∧
    (postChat SECRET_KEY openai history req).calls =
      [completionParams (history ++ [Message.mk .user (.str m)])] := by
  rw [postChat_no_reply SECRET_KEY openai history req (.str m) hauth hmsg (truthy_str m hm)
    ((replyOf_eq_none_iff _).mpr hup)]
  exact ⟨rfl, rfl, rfl⟩

/-- Witness for C9: the completion API throws on the first exchange. -/
theorem postChat_upstream_failure_witness :
    (postChat (some "k") (fun _ => .rejected) conversationHistory
        { headers := [("devkey", "k")], body := [("message", .str "Hello")] }).response =
      ⟨500, .obj [("error", .str "Something went wrong. Please try again.")]⟩ ∧
    (postChat (some "k") (fun _ => .rejected) conversationHistory
        { headers := [("devkey", "k")], body := [("message", .str "Hello")] }).conversationHistory =
      conversationHistory ++ [Message.mk .user (.str "Hello")] ∧
    (postChat (some "k") (fun _ => .rejected) conversationHistory
        { headers := [("devkey", "k")], body := [("message", .str "Hello")] }).calls =
      [completionParams (conversationHistory ++ [Message.mk .user (.str "Hello")])] :=
  postChat_upstream_failure (some "k") (fun _ => .rejected) conversationHistory
    { headers := [("devkey", "k")], body := [("message", .str "Hello")] } "Hello"
    (by decide) rfl (by decide) (Or.inl rfl)

/-! ## Reset -/

/-- The outcome of `/clear` once the check has passed. -/
theorem postClear_ok (SECRET_KEY : Option String) (history : List Message) (req : Request)
    (hauth : authorize SECRET_KEY req = true) :
    postClear SECRET_KEY history req =
      { response := ⟨200, .obj [("message", .str "Conversation history cleared.")]⟩
        conversationHistory := clearedHistory, calls := [], pushed := [] } := by
  unfold postClear
  simp [hauth]

/-- C7: for every prior transcript, an authorized `/clear` request is answered
with 200 and the confirmation body, makes no upstream call and leaves the
transcript as the single system entry with the fixed content of lines 107-115;
a second authorized `/clear` leaves the same transcript, and an authorized
`/chat` with a non-empty message made right after it makes one call to the
completion API, whose `messages` are exactly two entries: that system entry
followed by the new user entry. -/
theorem postClear_authorized (SECRET_KEY : Option String) (history : List Message)
    (req : Request) (hauth : authorize SECRET_KEY req = true) :
    (postClear SECRET_KEY history req).response =
      ⟨200, .obj [("message", .str "Conversation history cleared.")]⟩ ∧
    (postClear SECRET_KEY history req).calls = [] ∧
    (postClear SECRET_KEY history req).conversationHistory =
      [Message.mk .system (.str clearedSystemContent)] ∧
    (∀ req₂ : Request, authorize SECRET_KEY req₂ = true →
      (postClear SECRET_KEY (postClear SECRET_KEY history req).conversationHistory
        req₂).conversationHistory = (postClear SECRET_KEY history req).conversationHistory) ∧
    (∀ (req₂ : Request) (openai : CompletionParams → Completion) (m : String),
      authorize SECRET_KEY req₂ = true → req₂.body.lookup "message" = some (.str m) →
      m ≠ "" →
      (postChat SECRET_KEY openai (postClear SECRET_KEY history req).conversationHistory
        req₂).calls =
        [completionParams
          [Message.mk .system (.str clearedSystemContent), Message.mk .user (.str m)]] ∧
      ((postChat SECRET_KEY openai (postClear SECRET_KEY history req).conversationHistory
        req₂).calls.map fun c => c.messages) =
        [[Message.mk .system (.str clearedSystemContent), Message.mk .user (.str m)]] ∧
      ((postChat SECRET_KEY openai (postClear SECRET_KEY history req).conversationHistory
        req₂).calls.map fun c => c.messages.length) = [2]) := by
  rw [postClear_ok SECRET_KEY history req hauth]
  refine ⟨rfl, rfl, rfl, ?_, ?_⟩
  · intro req₂ h₂
    rw [postClear_ok SECRET_KEY _ req₂ h₂]
  · intro req₂ openai m h₂ hmsg hm
    have hcalls : (postChat SECRET_KEY openai clearedHistory req₂).calls =
        [completionParams (clearedHistory ++ [Message.mk .user (.str m)])] := by
      cases hup : replyOf (openai (completionParams
          (clearedHistory ++ [Message.mk .user (.str m)]))) with
      | none =>
        rw [postChat_no_reply SECRET_KEY openai clearedHistory req₂ (.str m) h₂ hmsg
          (truthy_str m hm) hup]
      | some reply =>
        rw [postChat_reply SECRET_KEY openai clearedHistory req₂ (.str m) reply h₂ hmsg
          (truthy_str m hm) hup]
    show (postChat SECRET_KEY openai clearedHistory req₂).calls = _ ∧ _
    rw [hcalls]
    exact ⟨rfl, rfl, rfl⟩

/-- Witness for C7: `/clear` with the right key after one failed exchange,
then a second `/clear`, and a `/chat` right after the first. -/
theorem postClear_authorized_witness :
    (postClear (some "k") (conversationHistory ++ [Message.mk .user (.str "Hello")])
        { headers := [("devkey", "k")], body := [] }).conversationHistory =
      [Message.mk .system (.str clearedSystemContent)] ∧
    (postClear (some "k")
        (postClear (some "k") (conversationHistory ++ [Message.mk .user (.str "Hello")])
          { headers := [("devkey", "k")], body := [] }).conversationHistory
        { headers := [("devkey", "k")], body := [] }).conversationHistory =
      (postClear (some "k") (conversationHistory ++ [Message.mk .user (.str "Hello")])
        { headers := [("devkey", "k")], body := [] }).conversationHistory ∧
    ((postChat (some "k") hiCompletion
        (postClear (some "k") (conversationHistory ++ [Message.mk .user (.str "Hello")])
          { headers := [("devkey", "k")], body := [] }).conversationHistory
        helloRequest).calls.map fun c => c.messages) =
      [[Message.mk .system (.str clearedSystemContent), Message.mk .user (.str "Hello")]] ∧
    ((postChat (some "k") hiCompletion
        (postClear (some "k") (conversationHistory ++ [Message.mk .user (.str "Hello")])
          { headers := [("devkey", "k")], body := [] }).conversationHistory
        helloRequest).calls.map fun c => c.messages.length) = [2] :=
  have h := postClear_authorized (some "k")
    (conversationHistory ++ [Message.mk .user (.str "Hello")])
    { headers := [("devkey", "k")], body := [] } (by decide)
  ⟨h.2.2.1, h.2.2.2.1 { headers := [("devkey", "k")], body := [] } (by decide),
    (h.2.2.2.2 helloRequest hiCompletion "Hello" (by decide) rfl (by decide)).2.1,
    (h.2.2.2.2 helloRequest hiCompletion "Hello" (by decide) rfl (by decide)).2.2⟩

/-- The two system texts differ: the one of lines 30-38 carries a blank before
five of its line ends, the one of lines 107-115 does not. -/
theorem clearedSystemContent_ne : clearedSystemContent ≠ systemContent := by
  decide

set_option maxRecDepth 100000 in
/-- The start-up text is five characters longer than the text of `/clear`. -/
theorem systemContent_length : systemContent.length = clearedSystemContent.length + 5 := by
  decide

/-- C8, evaluated where it fails: the transcript an authorized `/clear` leaves
is not the transcript the process starts with; both have one system entry, and
the contents differ (the start-up text is five characters longer). -/
theorem postClear_not_initial :
    (postClear (some "k") conversationHistory
        { headers := [("devkey", "k")], body := [] }).conversationHistory ≠
      conversationHistory ∧
    systemContent.length = clearedSystemContent.length + 5 := by
  constructor
  · rw [postClear_ok (some "k") conversationHistory
      { headers := [("devkey", "k")], body := [] } (by decide)]
    intro h
    have h1 : Json.str clearedSystemContent = Json.str systemContent := by
      simpa [clearedHistory, conversationHistory] using h
    exact clearedSystemContent_ne (Json.str.inj h1)
  · exact systemContent_length

/-! ## The widget against the relay -/

/-- C10, evaluated where it fails: for the input `"  hi \n"` the widget builds
a POST to the relay with body `{message: "hi"}`, but its only header is
`Content-Type`; the request reaches the relay without a `devkey` header and,
with a secret configured, is answered with 401. -/
theorem sendMessage_without_devkey :
    sendMessage "  hi \n" = some
      { url := "http://localhost:3000/chat"
        method := "POST"
        headers := [("Content-Type", "application/json")]
        body := .obj [("message", .str "hi")] } ∧
    (sendMessage "  hi \n").map (fun r => (received r).headers.lookup "devkey") =
      some none ∧
    (sendMessage "  hi \n").map (fun r => authorize (some "k") (received r)) = some false ∧
    (sendMessage "  hi \n").map (fun r =>
      (postChat (some "k") (fun _ => .rejected) conversationHistory
        (received r)).response.status) = some 401 := by
  refine ⟨?_, ?_, ?_, ?_⟩
  · rfl
  · decide
  · decide
  · decide

/-! ## Runs of successful exchanges -/

/-- A `/chat` request answered with 200 went through the whole handler. -/
theorem postChat_status_200 (SECRET_KEY : Option String)
    (openai : CompletionParams → Completion) (history : List Message) (req : Request)
    (h : (postChat SECRET_KEY openai history req).response.status = 200) :
    ∃ message reply, authorize SECRET_KEY req = true ∧
      req.body.lookup "message" = some message ∧ message.truthy = true ∧
      replyOf (openai (completionParams (history ++ [Message.mk .user message]))) =
        some reply := by
  unfold postChat at h
  cases hauth : authorize SECRET_KEY req with
  | false => simp [hauth] at h
  | true =>
    cases hmsg : req.body.lookup "message" with
    | none => simp [hauth, hmsg] at h
    | some message =>
      cases ht : message.truthy with
      | false => simp [hauth, hmsg, ht] at h
      | true =>
        cases hup : replyOf (openai (completionParams
            (history ++ [Message.mk .user message]))) with
        | none => simp [hauth, hmsg, ht, hup] at h
        | some reply => exact ⟨message, reply, rfl, rfl, ht, hup⟩

/-- Keeping the last 20 entries, appending, and keeping the last 20 again is
keeping the last 20 of the whole. -/
theorem drop_append_drop (log p : List α) :
    (log.drop (log.length - 20) ++ p).drop ((log.drop (log.length - 20) ++ p).length - 20) =
      (log ++ p).drop ((log ++ p).length - 20) := by
  have hle : log.length - 20 ≤ log.length := Nat.sub_le _ _
  rw [← List.drop_append_of_le_length hle, List.drop_drop]
  congr 1
  simp only [List.length_drop, List.length_append]
  omega

/-- Along a run of successful `/chat` calls the history is always the last 20
entries of the untruncated transcript, which grows by two entries per call. -/
theorem run_eq_drop_untruncated (SECRET_KEY : Option String) (es : List Event) :
    ∀ history log : List Message, history = log.drop (log.length - 20) →
      allChatsSucceed SECRET_KEY history es = true →
      run SECRET_KEY history es =
        (untruncated SECRET_KEY history log es).drop
          ((untruncated SECRET_KEY history log es).length - 20) ∧
      (untruncated SECRET_KEY history log es).length = log.length + 2 * es.length := by
  induction es with
  | nil =>
    intro history log hh _
    exact ⟨hh, rfl⟩
  | cons e es ih =>
    intro history log hh hok
    cases e with
    | clear req => simp [allChatsSucceed] at hok
    | chat req openai =>
      simp only [allChatsSucceed, Bool.and_eq_true, beq_iff_eq] at hok
      obtain ⟨message, reply, hauth, hmsg, ht, hup⟩ :=
        postChat_status_200 SECRET_KEY openai history req hok.1
      have hout := postChat_reply SECRET_KEY openai history req message reply hauth hmsg ht hup
      have hnext := hok.2
      rw [hout] at hnext
      have hinv : (history ++ [Message.mk .user message, Message.mk .assistant reply]).drop
            ((history ++ [Message.mk .user message, Message.mk .assistant reply]).length - 20) =
          (log ++ [Message.mk .user message, Message.mk .assistant reply]).drop
            ((log ++ [Message.mk .user message, Message.mk .assistant reply]).length - 20) := by
        rw [hh]
        exact drop_append_drop log _
      have hstep := ih _ (log ++ [Message.mk .user message, Message.mk .assistant reply])
        hinv hnext
      simp only [run, untruncated, step, hout]
      refine ⟨hstep.1, ?_⟩
      rw [hstep.2]
      simp only [List.length_append, List.length_cons, List.length_nil]
      omega

/-- C5: starting from the transcript of process start, after any finite
sequence of `/chat` calls that were all answered with 200 the transcript has
at most 20 entries, and whenever the untruncated transcript (the initial entry
followed by every pushed entry, two per call) has more than 20 entries the
transcript is exactly its last 20 entries in their order. -/
theorem successful_chats_bounded (SECRET_KEY : Option String) (es : List Event)
    (hok : allChatsSucceed SECRET_KEY conversationHistory es = true) :
    (run SECRET_KEY conversationHistory es).length ≤ 20 ∧
    (20 < (untruncated SECRET_KEY conversationHistory conversationHistory es).length →
      run SECRET_KEY conversationHistory es =
        (untruncated SECRET_KEY conversationHistory conversationHistory es).drop
          ((untruncated SECRET_KEY conversationHistory conversationHistory es).length - 20)) ∧
    ((untruncated SECRET_KEY conversationHistory conversationHistory es).length ≤ 20 →
      run SECRET_KEY conversationHistory es =
        untruncated SECRET_KEY conversationHistory conversationHistory es) ∧
    (untruncated SECRET_KEY conversationHistory conversationHistory es).length =
      1 + 2 * es.length := by
  have h := run_eq_drop_untruncated SECRET_KEY es conversationHistory conversationHistory
    rfl hok
  refine ⟨?_, fun _ => h.1, ?_, h.2⟩
  · rw [h.1, List.length_drop]
    omega
  · intro hle
    have h0 : (untruncated SECRET_KEY conversationHistory conversationHistory es).length - 20
        = 0 := by omega
    rw [h.1, h0, List.drop_zero]

/-- Witness for C5: eleven successful exchanges after process start. -/
theorem successful_chats_bounded_witness :
    allChatsSucceed (some "k") conversationHistory (helloEvents 11) = true ∧
    (run (some "k") conversationHistory (helloEvents 11)).length ≤ 20 ∧
    (untruncated (some "k") conversationHistory conversationHistory (helloEvents 11)).length
      = 23 :=
  have h := successful_chats_bounded (some "k") (helloEvents 11) (by decide)
  ⟨by decide, h.1, h.2.2.2⟩

/-! ## The system entry -/

/-- Appending entries without the system role keeps a headed transcript headed. -/
theorem headed_append {l t : List Message} (h : Headed l) (ht : NoSystem t) :
    Headed (l ++ t) := by
  obtain ⟨p, rest, rfl, hp, hrest⟩ := h
  refine ⟨p, rest ++ t, rfl, hp, ?_⟩
  intro m hm
  rcases List.mem_append.mp hm with h1 | h1
  · exact hrest m h1
  · exact ht m h1

/-- Appending keeps the absence of system entries. -/
theorem noSystem_append {l t : List Message} (h : NoSystem l) (ht : NoSystem t) :
    NoSystem (l ++ t) := by
  intro m hm
  rcases List.mem_append.mp hm with h1 | h1
  · exact h m h1
  · exact ht m h1

/-- Dropping entries from the front keeps the absence of system entries. -/
theorem noSystem_drop {l : List Message} (h : NoSystem l) (k : Nat) :
    NoSystem (l.drop k) :=
  fun m hm => h m (List.mem_of_mem_drop hm)

/-- Dropping entries from the front of a headed transcript leaves it headed
(nothing dropped) or without any system entry. -/
theorem headed_or_noSystem_drop {l : List Message} (h : Headed l ∨ NoSystem l) (k : Nat) :
    Headed (l.drop k) ∨ NoSystem (l.drop k) := by
  rcases h with h | h
  · cases k with
    | zero => exact Or.inl (by simpa using h)
    | succ k =>
      obtain ⟨p, rest, rfl, _, hrest⟩ := h
      exact Or.inr (by simpa using noSystem_drop hrest k)
  · exact Or.inr (noSystem_drop h k)

/-- The three ways `/chat` can leave the history: untouched, with one user
entry appended, or with a user and an assistant entry appended and then
truncated. -/
theorem postChat_history_cases (SECRET_KEY : Option String)
    (openai : CompletionParams → Completion) (history : List Message) (req : Request) :
    (postChat SECRET_KEY openai history req).conversationHistory = history ∨
    (∃ message, (postChat SECRET_KEY openai history req).conversationHistory =
      history ++ [Message.mk .user message]) ∨
    (∃ message reply, (postChat SECRET_KEY openai history req).conversationHistory =
      (history ++ [Message.mk .user message, Message.mk .assistant reply]).drop
        ((history ++ [Message.mk .user message, Message.mk .assistant reply]).length - 20)) := by
  cases hauth : authorize SECRET_KEY req with
  | false => exact Or.inl (by rw [postChat_unauthorized SECRET_KEY openai history req hauth])
  | true =>
    cases hmsg : req.body.lookup "message" with
    | none =>
      exact Or.inl (by unfold postChat; simp [hauth, hmsg])
    | some message =>
      cases ht : message.truthy with
      | false => exact Or.inl (by unfold postChat; simp [hauth, hmsg, ht])
      | true =>
        cases hup : replyOf (openai (completionParams
            (history ++ [Message.mk .user message]))) with
        | none =>
          exact Or.inr (Or.inl ⟨message, by
            rw [postChat_no_reply SECRET_KEY openai history req message hauth hmsg ht hup]⟩)
        | some reply =>
          exact Or.inr (Or.inr ⟨message, reply, by
            rw [postChat_reply SECRET_KEY openai history req message reply hauth hmsg ht
              hup]⟩)

/-- One `/chat` request keeps the shape, with one more request counted. -/
theorem shape_postChat (SECRET_KEY : Option String) (openai : CompletionParams → Completion)
    (history : List Message) (req : Request) (count : Nat) (h : Shape history count) :
    Shape (postChat SECRET_KEY openai history req).conversationHistory (count + 1) := by
  have hu : ∀ message : Json, NoSystem [Message.mk .user message] := by
    intro message m hm
    simp only [List.mem_singleton] at hm
    simp [hm]
  have hua : ∀ message reply : Json,
      NoSystem [Message.mk .user message, Message.mk .assistant reply] := by
    intro message reply m hm
    simp only [List.mem_cons, List.mem_singleton, List.not_mem_nil, or_false] at hm
    rcases hm with hm | hm <;> simp [hm]
  rcases postChat_history_cases SECRET_KEY openai history req with hc | ⟨message, hc⟩ |
    ⟨message, reply, hc⟩
  · rw [hc]
    refine ⟨h.1, fun hle => ?_⟩
    have h2 := h.2 (by omega)
    exact ⟨h2.1, by omega⟩
  · rw [hc]
    refine ⟨?_, fun hle => ?_⟩
    · rcases h.1 with h1 | h1
      · exact Or.inl (headed_append h1 (hu message))
      · exact Or.inr (noSystem_append h1 (hu message))
    · have h2 := h.2 (by omega)
      refine ⟨headed_append h2.1 (hu message), ?_⟩
      simp only [List.length_append, List.length_cons, List.length_nil]
      omega
  · rw [hc]
    refine ⟨?_, fun hle => ?_⟩
    · apply headed_or_noSystem_drop
      rcases h.1 with h1 | h1
      · exact Or.inl (headed_append h1 (hua message reply))
      · exact Or.inr (noSystem_append h1 (hua message reply))
    · have h2 := h.2 (by omega)
      have hlen : (history ++ [Message.mk .user message, Message.mk .assistant reply]).length
          = history.length + 2 := by simp
      have h0 : (history ++ [Message.mk .user message,
          Message.mk .assistant reply]).length - 20 = 0 := by omega
      rw [h0, List.drop_zero]
      exact ⟨headed_append h2.1 (hua message reply), by omega⟩

/-- The transcript `/clear` installs has the shape, with no request counted. -/
theorem shape_clearedHistory : Shape clearedHistory 0 := by
  have hh : Headed clearedHistory :=
    ⟨_, [], rfl, Or.inr rfl, fun _ hm => absurd hm (List.not_mem_nil _)⟩
  exact ⟨Or.inl hh, fun _ => ⟨hh, by simp [clearedHistory]⟩⟩

/-- The transcript of process start has the shape, with no request counted. -/
theorem shape_conversationHistory : Shape conversationHistory 0 := by
  have hh : Headed conversationHistory :=
    ⟨_, [], rfl, Or.inl rfl, fun _ hm => absurd hm (List.not_mem_nil _)⟩
  exact ⟨Or.inl hh, fun _ => ⟨hh, by simp [conversationHistory]⟩⟩

/-- Every run keeps the shape, with the count that `chatsSinceReset` keeps. -/
theorem shape_run (SECRET_KEY : Option String) (es : List Event) :
    ∀ (history : List Message) (count : Nat), Shape history count →
      Shape (run SECRET_KEY history es) (chatsSinceReset SECRET_KEY count es) := by
  induction es with
  | nil => intro history count h; exact h
  | cons e es ih =>
    intro history count h
    cases e with
    | chat req openai =>
      exact ih _ _ (shape_postChat SECRET_KEY openai history req count h)
    | clear req =>
      simp only [run, chatsSinceReset, step]
      apply ih
      cases hauth : authorize SECRET_KEY req with
      | false =>
        rw [postClear_unauthorized SECRET_KEY history req hauth]
        simpa using h
      | true =>
        rw [postClear_ok SECRET_KEY history req hauth]
        simpa using shape_clearedHistory

/-- C6 as stated fails: after ten successful exchanges from process start the
first entry of the transcript is a user entry and no entry has the system
role. -/
theorem system_entry_dropped :
    ((run (some "k") conversationHistory (helloEvents 10)).head?.map Message.role) =
      some Role.user ∧
    ((run (some "k") conversationHistory (helloEvents 10)).map Message.role).count
      Role.system = 0 := by
  constructor
  · decide
  · decide

/-- C6, amended: in every state reachable from process start by `/chat` and
`/clear` requests, no entry after the first has the system role and an entry
with the system role is one of the two persona entries (the one of process
start or the one of `/clear`); and while at most 9 `/chat` requests have been
handled since process start or the last authorized `/clear`, the first entry
is such a persona entry. -/
theorem system_entry_shape (SECRET_KEY : Option String) (es : List Event) :
    (∀ m ∈ (run SECRET_KEY conversationHistory es).tail, m.role ≠ .system) ∧
    (∀ m ∈ run SECRET_KEY conversationHistory es, m.role = .system →
      m = Message.mk .system (.str systemContent) ∨
      m = Message.mk .system (.str clearedSystemContent)) ∧
    (chatsSinceReset SECRET_KEY 0 es ≤ 9 →
      ∃ rest,
        run SECRET_KEY conversationHistory es =
          Message.mk .system (.str systemContent) :: rest ∨
        run SECRET_KEY conversationHistory es =
          Message.mk .system (.str clearedSystemContent) :: rest) := by
  have h := shape_run SECRET_KEY es conversationHistory 0 shape_conversationHistory
  refine ⟨?_, ?_, ?_⟩
  · intro m hm
    rcases h.1 with ⟨p, rest, hl, _, hrest⟩ | h1
    · rw [hl] at hm
      exact hrest m hm
    · exact h1 m (List.mem_of_mem_tail hm)
  · intro m hm hrole
    rcases h.1 with ⟨p, rest, hl, hp, hrest⟩ | h1
    · rw [hl] at hm
      rcases List.mem_cons.mp hm with hm | hm
      · rw [hm]; exact hp
      · exact absurd hrole (hrest m hm)
    · exact absurd hrole (h1 m hm)
  · intro hle
    obtain ⟨⟨p, rest, hl, hp, _⟩, _⟩ := h.2 hle
    refine ⟨rest, ?_⟩
    rcases hp with hp | hp
    · exact Or.inl (by rw [hl, hp])
    · exact Or.inr (by rw [hl, hp])

/-- Witness for C6, amended: nine exchanges after process start. -/
theorem system_entry_shape_witness :
    chatsSinceReset (some "k") 0 (helloEvents 9) ≤ 9 ∧
    ∃ rest,
      run (some "k") conversationHistory (helloEvents 9) =
        Message.mk .system (.str systemContent) :: rest ∨
      run (some "k") conversationHistory (helloEvents 9) =
        Message.mk .system (.str clearedSystemContent) :: rest :=
  ⟨by decide, (system_entry_shape (some "k") (helloEvents 9)).2.2 (by decide)⟩

end DepressionChatbot
